import Mathlib

/-!
Shallow embedding of the memory-formation pipeline of
`app/services/langchain_service.py` (class `LangChainService`) together with
the ORM model `app/models/memory.py` (class `Memory`).

The three LangChain `ConversationChain` agents differ only in their prompt
template; each `predict(input=..., history=[])` call renders its template
with the given history and input, sends the rendered prompt to the LLM, and
feeds the `(input, output)` turn back into the shared
`ConversationKGMemory` store.  The LLM completion client is external and is
modelled as an oracle `String → Option String` (`none` = upstream failure,
per spec §4.2 / §7 the stage then fails with `UpstreamGenerationError` and
performs no memory update).  The knowledge-graph store's fact extraction is
also delegated to the external LLM; per spec §4.1 it is modelled abstractly
as the monotone list of `(input, output)` turns fed to `update`, with
`load` a pure rendering of that list.  The SQLAlchemy session used by
`save_memory` is modelled by an explicit event trace (add / commit /
refresh / rollback / close) and a `commitOk` flag deciding whether the
insert succeeds.
-/

namespace LangChainService

/-- Python truthiness / substring helpers. -/
def strLower (s : String) : String := ⟨s.data.map Char.toLower⟩

/-- Contiguous-sublist check on character lists. -/
def subList (needle : List Char) : List Char → Bool
  | [] => needle.isEmpty
  | c :: t => needle.isPrefixOf (c :: t) || subList needle t

/-- `needle in hay` for Python strings: substring containment. -/
def containsSub (needle hay : String) : Bool :=
  subList needle.data hay.data

/-- The save-gate test of `confirm_memory`: `"yes" in confirmation.lower()`. -/
def containsYes (confirmation : String) : Bool :=
  containsSub "yes" (strLower confirmation)

/-- Python `str` of a list of strings, as `PromptTemplate.format` renders the
`history=[]` argument (only `[]` ever occurs in the source). -/
def pyStrList : List String → String
  | [] => "[]"
  | x :: xs => "['" ++ String.intercalate "', '" (x :: xs) ++ "']"

/-- Shared head of the three prompt templates in `LangChainService.__init__`,
up to and including the blank line after `Relevant Information:`. -/
def promptHeader : String :=
  "The following is a friendly conversation between a human and an AI. The AI is talkative and provides lots of specific details from its context. \n        If the AI does not know the answer to a question, it truthfully says it does not know. The AI ONLY uses information contained in the \"Relevant Information\" section and does not hallucinate.\n\n        Relevant Information:\n\n        "

/-- Shared tail of the three prompt templates, from `Human:` on. -/
def promptFooter (input : String) : String :=
  "\n        Human: " ++ input ++ "\n        AI:\n        "

/-- `agent1_prompt_template` (the Answerer) rendered at `history`/`input`. -/
def agent1_prompt (history input : String) : String :=
  promptHeader ++ history ++ "\n\n        Conversation:" ++ promptFooter input

/-- `agent2_prompt_template` (the Analyzer) rendered at `history`/`input`. -/
def agent2_prompt (history input : String) : String :=
  promptHeader ++ history ++
    "\n\n        Analyze the response for potential memory\n\n        Conversation:" ++
    promptFooter input

/-- `agent3_prompt_template` (the Confirmer) rendered at `history`/`input`. -/
def agent3_prompt (history input : String) : String :=
  promptHeader ++ history ++
    "\n\n        Confirm if the memory should be saved.\n\n        Conversation:" ++
    promptFooter input

/-- The input string built in `analyze_response`. -/
def analyze_input (question response : String) : String :=
  "Question: " ++ question ++ "\nResponse: " ++ response ++ "\nShould this be remembered?"

/-- The input string built in `confirm_memory`. -/
def confirm_input (analysis : String) : String :=
  "Analysis: " ++ analysis ++ "\nIs this a valid memory?"

/-- The shared `ConversationKGMemory` store, modelled per spec §4.1 as the
monotonically growing list of `(input, output)` turns fed to `update`
(the fact extraction itself is performed by the external LLM client and is
not re-specified). -/
structure KG where
  facts : List (String × String)
deriving DecidableEq, Repr

/-- `update`: merge the latest exchange into the fact set (spec §4.1). -/
def KG.update (kg : KG) (inp out : String) : KG :=
  ⟨kg.facts ++ [(inp, out)]⟩

/-- `load`: pure rendering of the current fact set as a context block
(spec §4.1; the relevance filter is internal to the external store and the
rendering is idempotent in the store state). -/
def KG.load (kg : KG) (_query : String) : String :=
  String.intercalate "\n" (kg.facts.map (fun t => t.1 ++ " -> " ++ t.2))

/-- One `ConversationChain.predict(input=inp, history=history)` call: render
the chain's template with the given history and input, call the LLM, and on
success feed the turn back into the shared store.  `none` models the LLM
call failing (`UpstreamGenerationError`); then no store update occurs
(spec §4.2 steps 3–4 are atomic as a pair). -/
def predict (llm : String → Option String) (renderP : String → String → String)
    (kg : KG) (inp : String) (history : List String) : Option (String × KG) :=
  match llm (renderP (pyStrList history) inp) with
  | none => none
  | some out => some (out, kg.update inp out)

/-- The ORM row of `app/models/memory.py`: `id` is `none` until the session
refresh assigns the autoincrement primary key. -/
structure Memory where
  id : Option Nat
  question : String
  response : String
  long_term : Bool
deriving DecidableEq, Repr

/-- `Memory(question=..., response=..., long_term=...)`: constructing the ORM
object; `long_term` omitted (`none`) falls back to the column default
`default=False`. -/
def Memory.make (question response : String) (long_term : Option Bool) : Memory :=
  { id := none, question := question, response := response,
    long_term := long_term.getD false }

/-- The persistence sink: committed rows of the `memories` table. -/
structure Db where
  records : List Memory
deriving DecidableEq, Repr

/-- `StorageError` of spec §7: the sink insert fails. -/
inductive StorageError
  | insertFailed
deriving DecidableEq, Repr

/-- SQLAlchemy session operations performed by `save_memory`, in order. -/
inductive DbEvent
  | add
  | commit
  | refresh
  | rollback
  | close
deriving DecidableEq, Repr

/-- Outcome of one `save_memory` call: the returned record or the re-raised
exception, the sink afterwards, and the session-operation trace. -/
structure SaveResult where
  result : Except StorageError Memory
  db : Db
  events : List DbEvent
deriving Repr

/-- `LangChainService.save_memory`: open a session, add the record, commit,
refresh (assigning the autoincrement id), return it; on failure roll back
and re-raise; the session is closed in `finally` on both paths.  `commitOk`
decides whether the commit succeeds. -/
def save_memory (db : Db) (commitOk : Bool) (question response : String)
    (long_term : Bool) : SaveResult :=
  let memory := Memory.make question response (some long_term)
  if commitOk then
    let memory := { memory with id := some (db.records.length + 1) }
    { result := .ok memory,
      db := ⟨db.records ++ [memory]⟩,
      events := [.add, .commit, .refresh, .close] }
  else
    { result := .error .insertFailed,
      db := db,
      events := [.add, .commit, .rollback, .close] }

/-- Pipeline failures observable by the `ask` caller (spec §7). -/
inductive AskError
  | upstream
  | storage
deriving DecidableEq, Repr

/-- `LangChainService.analyze_response`: one Analyzer `predict` call on the
rendered `Question/Response/Should this be remembered?` input, with
`history=[]`. -/
def analyze_response (llm : String → Option String) (kg : KG)
    (question response : String) : Option (String × KG) :=
  predict llm agent2_prompt kg (analyze_input question response) []

/-- Observable outcome of one `confirm_memory` call. -/
structure ConfirmTrace where
  err : Option AskError
  db : Db
  kg : KG
  inserts : List (String × String × Bool)
  inserted : Option Memory
deriving Repr

/-- `LangChainService.confirm_memory`: one Confirmer `predict` call with
`history=[]`; if the confirmation contains `"yes"` case-insensitively, call
`save_memory(question, response, long_term=True)` and discard its return
value.  `inserts` records the argument triple of each insert attempt. -/
def confirm_memory (llm : String → Option String) (commitOk : Bool) (kg : KG)
    (db : Db) (analysis question response : String) : ConfirmTrace :=
  match predict llm agent3_prompt kg (confirm_input analysis) [] with
  | none => { err := some .upstream, db := db, kg := kg, inserts := [], inserted := none }
  | some (confirmation, kg1) =>
    if containsYes confirmation then
      let sr := save_memory db commitOk question response true
      match sr.result with
      | .ok rec =>
        { err := none, db := sr.db, kg := kg1,
          inserts := [(question, response, true)], inserted := some rec }
      | .error _ =>
        { err := some .storage, db := sr.db, kg := kg1,
          inserts := [(question, response, true)], inserted := none }
    else
      { err := none, db := db, kg := kg1, inserts := [], inserted := none }

/-- Observable outcome of one `ask_question` invocation: the value returned
(or exception raised) to the caller, the sink and store afterwards, whether
the Confirmer stage ran, the insert attempts with their arguments, the
successfully inserted record if any, the prompts sent to the LLM, and the
`history` argument passed to each stage call. -/
structure AskTrace where
  result : Except AskError String
  db : Db
  kg : KG
  confirmerCalled : Bool
  inserts : List (String × String × Bool)
  inserted : Option Memory
  prompts : List String
  histories : List (List String)
deriving Repr

/-- `LangChainService.ask_question`: Answerer, then `analyze_response`; if
the analysis is truthy (a non-empty string), `confirm_memory`; return the
Answerer's response.  Exceptions from any stage or from persistence
propagate to the caller. -/
def ask_question (llm : String → Option String) (commitOk : Bool) (db : Db)
    (kg : KG) (question : String) : AskTrace :=
  match predict llm agent1_prompt kg question [] with
  | none =>
    { result := .error .upstream, db := db, kg := kg, confirmerCalled := false,
      inserts := [], inserted := none,
      prompts := [agent1_prompt (pyStrList []) question],
      histories := [[]] }
  | some (response, kg1) =>
    match analyze_response llm kg1 question response with
    | none =>
      { result := .error .upstream, db := db, kg := kg1, confirmerCalled := false,
        inserts := [], inserted := none,
        prompts := [agent1_prompt (pyStrList []) question,
                    agent2_prompt (pyStrList []) (analyze_input question response)],
        histories := [[], []] }
    | some (analysis, kg2) =>
      if analysis ≠ "" then
        let c := confirm_memory llm commitOk kg2 db analysis question response
        { result := match c.err with
                    | some e => .error e
                    | none => .ok response,
          db := c.db, kg := c.kg, confirmerCalled := true,
          inserts := c.inserts, inserted := c.inserted,
          prompts := [agent1_prompt (pyStrList []) question,
                      agent2_prompt (pyStrList []) (analyze_input question response),
                      agent3_prompt (pyStrList []) (confirm_input analysis)],
          histories := [[], [], []] }
      else
        { result := .ok response, db := db, kg := kg2, confirmerCalled := false,
          inserts := [], inserted := none,
          prompts := [agent1_prompt (pyStrList []) question,
                      agent2_prompt (pyStrList []) (analyze_input question response)],
          histories := [[], []] }

/-- `LangChainService.load_memory`: a pure read of the shared store. -/
def load_memory (kg : KG) (query : String) : String :=
  KG.load kg query

/-- The Answerer's output under a total (never-failing) LLM oracle `f`. -/
def answerer_out (f : String → String) (q : String) : String :=
  f (agent1_prompt (pyStrList []) q)

/-- The Analyzer's output under a total LLM oracle `f`. -/
def analyzer_out (f : String → String) (q : String) : String :=
  f (agent2_prompt (pyStrList []) (analyze_input q (answerer_out f q)))

/-- The Confirmer's output under a total LLM oracle `f` (the text the
Confirmer would produce when reached). -/
def confirmer_out (f : String → String) (q : String) : String :=
  f (agent3_prompt (pyStrList []) (confirm_input (analyzer_out f q)))

/-- A concrete LLM oracle whose Analyzer answer is the blank (whitespace-only,
non-empty) string and whose Confirmer answer is negative; stage dispatch is
by the marker text that `analyze_input` / `confirm_input` put into the
prompt. -/
def blankAnalyzerLlm (p : String) : String :=
  if containsSub "Should this be remembered?" p then " "
  else if containsSub "Is this a valid memory?" p then "No."
  else "Paris."

/-- A concrete LLM oracle whose Confirmer answer contains `"yes"` only as
part of the longer word `"yesterday"`. -/
def yesterdayLlm (p : String) : String :=
  if containsSub "Is this a valid memory?" p then "It happened yesterday."
  else if containsSub "Should this be remembered?" p then "Maybe worth remembering."
  else "Paris."

/-- The end-to-end scenario oracle of spec §8.6: affirmative confirmation. -/
def scenarioLlm (p : String) : String :=
  if containsSub "Is this a valid memory?" p then "Yes, this should be saved."
  else if containsSub "Should this be remembered?" p then
    "This is a factual statement worth remembering."
  else "The capital of France is Paris."

set_option maxRecDepth 100000

/-- C1: for every `ask(question)` invocation (with a total LLM oracle and a
working sink), a Memory Record is persisted iff the Confirmer's output
contains `"yes"` case-insensitively and the Analyzer's output is non-empty;
the persisted record carries the original question, the Answerer's response,
and `long_term = true`. -/
theorem c1_memory_record_iff_gate (f : String → String) (db : Db) (kg : KG) (q : String) :
    if containsYes (confirmer_out f q) ∧ analyzer_out f q ≠ "" then
      (ask_question (fun p => some (f p)) true db kg q).db.records = db.records ++
        [{ id := some (db.records.length + 1), question := q,
           response := answerer_out f q, long_term := true }] ∧
      (ask_question (fun p => some (f p)) true db kg q).inserted.isSome
    else (ask_question (fun p => some (f p)) true db kg q).db = db ∧
      (ask_question (fun p => some (f p)) true db kg q).inserted = none := by
  by_cases hA : analyzer_out f q = ""
  · simp only [ask_question, predict, analyze_response, confirm_memory, save_memory,
      Memory.make, answerer_out, analyzer_out, confirmer_out] at hA ⊢
    simp [hA]
  · by_cases hC : containsYes (confirmer_out f q)
    · simp only [ask_question, predict, analyze_response, confirm_memory, save_memory,
        Memory.make, answerer_out, analyzer_out, confirmer_out] at hA hC ⊢
      simp [hA, hC]
    · simp only [ask_question, predict, analyze_response, confirm_memory, save_memory,
        Memory.make, answerer_out, analyzer_out, confirmer_out] at hA hC ⊢
      simp [hA, hC]

/-- C2 counterexample: with an Analyzer output that is blank (whitespace-only)
but not empty, Python's truthiness test `if analysis:` succeeds, so the
Confirmer stage IS invoked — refuting the claim that a blank analysis stops
the pipeline before the Confirmer. -/
theorem c2_blank_analysis_counterexample :
    analyzer_out blankAnalyzerLlm "Q" = " " ∧
    (ask_question (fun p => some (blankAnalyzerLlm p)) true ⟨[]⟩ ⟨[]⟩ "Q").confirmerCalled
      = true := by
  constructor
  · decide
  · decide

/-- C2 amended: if the Analyzer's output is the *empty* string, the pipeline
stops after analysis: the Confirmer stage is never invoked and no
persistence is attempted. -/
theorem c2_empty_analysis_stops_pipeline (f : String → String) (commitOk : Bool)
    (db : Db) (kg : KG) (q : String) (h : analyzer_out f q = "") :
    (ask_question (fun p => some (f p)) commitOk db kg q).confirmerCalled = false ∧
    (ask_question (fun p => some (f p)) commitOk db kg q).inserts = [] ∧
    (ask_question (fun p => some (f p)) commitOk db kg q).db = db := by
  simp only [ask_question, predict, analyze_response, analyzer_out, answerer_out] at h ⊢
  simp [h]

/-- C2 witness: the amended statement at a concrete oracle whose Analyzer
output is empty. -/
theorem c2_empty_analysis_stops_pipeline_witness :
    analyzer_out (fun _ => "") "Q" = "" ∧
    ((ask_question (fun p => some ((fun _ => "") p)) true ⟨[]⟩ ⟨[]⟩ "Q").confirmerCalled = false ∧
     (ask_question (fun p => some ((fun _ => "") p)) true ⟨[]⟩ ⟨[]⟩ "Q").inserts = [] ∧
     (ask_question (fun p => some ((fun _ => "") p)) true ⟨[]⟩ ⟨[]⟩ "Q").db = ⟨[]⟩) :=
  ⟨rfl, c2_empty_analysis_stops_pipeline (fun _ => "") true ⟨[]⟩ ⟨[]⟩ "Q" rfl⟩

/-- C3: in every invocation that reaches the Confirmer (non-empty analysis),
if the Confirmer's output contains `"yes"` in any casing (substring match,
so also inside a longer word), `insert` is attempted exactly once with the
question, the Answerer's response, and `long_term = true`; otherwise
`insert` is never attempted. -/
theorem c3_confirmer_substring_gate (f : String → String) (commitOk : Bool)
    (db : Db) (kg : KG) (q : String) (h : analyzer_out f q ≠ "") :
    if containsYes (confirmer_out f q) then
      (ask_question (fun p => some (f p)) commitOk db kg q).inserts =
        [(q, answerer_out f q, true)]
    else (ask_question (fun p => some (f p)) commitOk db kg q).inserts = [] := by
  by_cases hC : containsYes (confirmer_out f q)
  · simp only [ask_question, predict, analyze_response, confirm_memory, save_memory,
      Memory.make, answerer_out, analyzer_out, confirmer_out] at h hC ⊢
    cases commitOk <;> simp [h, hC]
  · simp only [ask_question, predict, analyze_response, confirm_memory, save_memory,
      Memory.make, answerer_out, analyzer_out, confirmer_out] at h hC ⊢
    simp [h, hC]

/-- C3 witness: a Confirmer output containing `"yes"` only inside the word
`"yesterday"` still triggers exactly one insert with `long_term = true`. -/
theorem c3_confirmer_substring_gate_witness :
    analyzer_out yesterdayLlm "Q" ≠ "" ∧
    (if containsYes (confirmer_out yesterdayLlm "Q") then
      (ask_question (fun p => some (yesterdayLlm p)) true ⟨[]⟩ ⟨[]⟩ "Q").inserts =
        [("Q", answerer_out yesterdayLlm "Q", true)]
    else (ask_question (fun p => some (yesterdayLlm p)) true ⟨[]⟩ ⟨[]⟩ "Q").inserts = []) :=
  ⟨by decide, c3_confirmer_substring_gate yesterdayLlm true ⟨[]⟩ ⟨[]⟩ "Q" (by decide)⟩

/-- C4: whenever all three LLM calls succeed and the sink works, `ask`
returns exactly the Answerer's response — whatever the Analyzer and
Confirmer said, and whether or not a memory was persisted; the analysis and
confirmation texts never appear in the return value. -/
theorem c4_ask_returns_answerer_response (f : String → String) (db : Db) (kg : KG)
    (q : String) :
    (ask_question (fun p => some (f p)) true db kg q).result =
      .ok (answerer_out f q) := by
  by_cases hA : analyzer_out f q = ""
  · simp only [ask_question, predict, analyze_response, confirm_memory, save_memory,
      Memory.make, answerer_out, analyzer_out, confirmer_out] at hA ⊢
    simp [hA]
  · by_cases hC : containsYes (confirmer_out f q)
    · simp only [ask_question, predict, analyze_response, confirm_memory, save_memory,
        Memory.make, answerer_out, analyzer_out, confirmer_out] at hA hC ⊢
      simp [hA, hC]
    · simp only [ask_question, predict, analyze_response, confirm_memory, save_memory,
        Memory.make, answerer_out, analyzer_out, confirmer_out] at hA hC ⊢
      simp [hA, hC]

/-- C5: a failed insert is atomic and surfaces to the `ask` caller: the
session rolls back, the sink keeps zero new records, `save_memory` re-raises
`StorageError`, and `ask` fails with the storage error even though the
Answerer had already produced the response. -/
theorem c5_storage_failure_atomic_and_propagates (f : String → String) (db : Db)
    (kg : KG) (q : String) (hA : analyzer_out f q ≠ "")
    (hC : containsYes (confirmer_out f q) = true) :
    (save_memory db false q (answerer_out f q) true).db = db ∧
    DbEvent.rollback ∈ (save_memory db false q (answerer_out f q) true).events ∧
    (save_memory db false q (answerer_out f q) true).result = .error .insertFailed ∧
    (ask_question (fun p => some (f p)) false db kg q).result = .error .storage ∧
    (ask_question (fun p => some (f p)) false db kg q).db = db := by
  refine ⟨rfl, by simp [save_memory], rfl, ?_, ?_⟩ <;>
  · simp only [ask_question, predict, analyze_response, confirm_memory, save_memory,
      Memory.make, answerer_out, analyzer_out, confirmer_out] at hA hC ⊢
    simp [hA, hC]

/-- C5 witness: the spec §8 end-to-end scenario with a failing sink. -/
theorem c5_storage_failure_witness :
    analyzer_out scenarioLlm "What is the capital of France?" ≠ "" ∧
    containsYes (confirmer_out scenarioLlm "What is the capital of France?") = true ∧
    (ask_question (fun p => some (scenarioLlm p)) false ⟨[]⟩ ⟨[]⟩
      "What is the capital of France?").result = .error .storage ∧
    (ask_question (fun p => some (scenarioLlm p)) false ⟨[]⟩ ⟨[]⟩
      "What is the capital of France?").db = ⟨[]⟩ :=
  ⟨by decide, by decide,
    (c5_storage_failure_atomic_and_propagates scenarioLlm ⟨[]⟩ ⟨[]⟩
      "What is the capital of France?" (by decide) (by decide)).2.2.2.1,
    (c5_storage_failure_atomic_and_propagates scenarioLlm ⟨[]⟩ ⟨[]⟩
      "What is the capital of France?" (by decide) (by decide)).2.2.2.2⟩

/-- C6: every stage call inside `ask` receives the empty list as its
`history` argument, and consequently the content of the shared Knowledge
Memory Store is never injected into the prompts: the prompts sent to the
LLM, the value returned to the caller, and the persistence outcome are all
identical for any two initial store states. -/
theorem c6_empty_history_kg_never_injected (llm : String → Option String)
    (commitOk : Bool) (db : Db) (kg kg' : KG) (q : String) :
    (ask_question llm commitOk db kg q).histories.all List.isEmpty = true ∧
    (ask_question llm commitOk db kg q).prompts =
      (ask_question llm commitOk db kg' q).prompts ∧
    (ask_question llm commitOk db kg q).result =
      (ask_question llm commitOk db kg' q).result ∧
    (ask_question llm commitOk db kg q).db =
      (ask_question llm commitOk db kg' q).db := by
  cases h1 : llm (agent1_prompt (pyStrList []) q) with
  | none => simp [ask_question, predict, h1]
  | some r =>
    cases h2 : llm (agent2_prompt (pyStrList []) (analyze_input q r)) with
    | none => simp [ask_question, predict, analyze_response, h1, h2]
    | some a =>
      by_cases hA : a = ""
      · simp [ask_question, predict, analyze_response, h1, h2, hA]
      · cases h3 : llm (agent3_prompt (pyStrList []) (confirm_input a)) with
        | none =>
          simp [ask_question, predict, analyze_response, confirm_memory, h1, h2, h3, hA]
        | some c =>
          by_cases hC : containsYes c
          · cases commitOk <;>
              simp [ask_question, predict, analyze_response, confirm_memory, save_memory,
                h1, h2, h3, hA, hC]
          · simp [ask_question, predict, analyze_response, confirm_memory, h1, h2, h3, hA, hC]

/-- C7: if the Answerer's LLM call fails, `ask` fails with the upstream
error, no Memory Record is created, and the Knowledge Memory Store is left
in its pre-call state, so its `load` output is unchanged. -/
theorem c7_answerer_failure_leaves_state (llm : String → Option String)
    (commitOk : Bool) (db : Db) (kg : KG) (q : String)
    (h : llm (agent1_prompt (pyStrList []) q) = none) :
    (ask_question llm commitOk db kg q).result = .error .upstream ∧
    (ask_question llm commitOk db kg q).db = db ∧
    (ask_question llm commitOk db kg q).inserted = none ∧
    (ask_question llm commitOk db kg q).kg = kg ∧
    ∀ query, load_memory (ask_question llm commitOk db kg q).kg query =
      load_memory kg query := by
  simp [ask_question, predict, h]

/-- C7 witness: a failing LLM oracle at a store already holding one fact. -/
theorem c7_answerer_failure_witness :
    ((fun _ : String => (none : Option String)) (agent1_prompt (pyStrList []) "Q")
      = none) ∧
    ((ask_question (fun _ => none) true ⟨[]⟩ ⟨[("France", "Paris")]⟩ "Q").result
        = .error .upstream ∧
     (ask_question (fun _ => none) true ⟨[]⟩ ⟨[("France", "Paris")]⟩ "Q").db = ⟨[]⟩ ∧
     (ask_question (fun _ => none) true ⟨[]⟩ ⟨[("France", "Paris")]⟩ "Q").inserted
        = none ∧
     (ask_question (fun _ => none) true ⟨[]⟩ ⟨[("France", "Paris")]⟩ "Q").kg
        = ⟨[("France", "Paris")]⟩ ∧
     ∀ query, load_memory
        (ask_question (fun _ => none) true ⟨[]⟩ ⟨[("France", "Paris")]⟩ "Q").kg query =
        load_memory ⟨[("France", "Paris")]⟩ query) :=
  ⟨rfl, c7_answerer_failure_leaves_state (fun _ => none) true ⟨[]⟩
    ⟨[("France", "Paris")]⟩ "Q" rfl⟩

/-- C8: `save_memory` closes its session last on both paths, and on the
failure path it rolls back (before the close that precedes the re-raise)
and re-raises the storage error. -/
theorem c8_session_always_closed (db : Db) (commitOk : Bool) (q r : String)
    (lt : Bool) :
    (save_memory db commitOk q r lt).events.getLast? = some DbEvent.close ∧
    (if commitOk then
      (save_memory db commitOk q r lt).events =
        [.add, .commit, .refresh, .close]
    else
      (save_memory db commitOk q r lt).events =
        [.add, .commit, .rollback, .close] ∧
      (save_memory db commitOk q r lt).result = .error .insertFailed) := by
  cases commitOk <;> exact ⟨rfl, by simp [save_memory]⟩

/-- C9: the `long_term` column defaults to `false` when the ORM object is
constructed without an explicit value, while `save_memory` always passes
`long_term` explicitly, so its outcome carries exactly the argument value
(and on failure no record at all), never the default. -/
theorem c9_long_term_default_and_explicit (q r : String) (lt : Bool) (db : Db) :
    (Memory.make q r none).long_term = false ∧
    (save_memory db true q r lt).result.map Memory.long_term = .ok lt ∧
    (save_memory db false q r lt).result.map Memory.long_term
      = .error .insertFailed := by
  refine ⟨rfl, ?_, rfl⟩
  simp [save_memory, Memory.make, Except.map]

/-- C10: a successful `save_memory` returns the record with a non-null id
and with `question`, `response`, `long_term` exactly equal to its
arguments; `confirm_memory` discards that record, so `ask` returns only the
Answerer's response text. -/
theorem c10_save_returns_record_ask_discards_it (q r : String) (lt : Bool)
    (db : Db) (f : String → String) (kg : KG) (p : String) :
    (save_memory db true q r lt).result =
      .ok { id := some (db.records.length + 1), question := q, response := r,
            long_term := lt } ∧
    (ask_question (fun s => some (f s)) true db kg p).result =
      .ok (answerer_out f p) := by
  constructor
  · simp [save_memory, Memory.make]
  · by_cases hA : analyzer_out f p = ""
    · simp only [ask_question, predict, analyze_response, confirm_memory, save_memory,
        Memory.make, answerer_out, analyzer_out, confirmer_out] at hA ⊢
      simp [hA]
    · by_cases hC : containsYes (confirmer_out f p)
      · simp only [ask_question, predict, analyze_response, confirm_memory, save_memory,
          Memory.make, answerer_out, analyzer_out, confirmer_out] at hA hC ⊢
        simp [hA, hC]
      · simp only [ask_question, predict, analyze_response, confirm_memory, save_memory,
          Memory.make, answerer_out, analyzer_out, confirmer_out] at hA hC ⊢
        simp [hA, hC]

end LangChainService
